import Mathlib

set_option maxRecDepth 16384

/-!
Verification of the palette engine of `analogue_pal_tool`.

The definitions below are a shallow embedding of the Rust sources:
  * `src/palette.rs`   — the 56-byte palette codec (`Palette::load` / `Palette::save`),
  * `src/png_helper.rs` — the 256-slot output palette (`PngPalette`) and the
    tolerance-based color matcher (`index_of_with_tolerance`),
  * `src/image_handler.rs` — the recolorer (`palettize_image`), the RGB-path
    scale validation (`color_image`) and the merge geometry (`color_images`).

Machine bytes (`u8`) are modelled as `Nat`; every arithmetic operation the
code performs on them (`saturating_sub`, `saturating_add`, comparisons) is
translated explicitly, so the embedding agrees with `u8` semantics on all
values ≤ 255.  Fallible operations (panics, `Result`) are modelled with
`Except`.
-/

/-- `Color = [u8; 3]` from `src/palette.rs`. -/
structure Color where
  r : Nat
  g : Nat
  b : Nat
deriving DecidableEq, Repr

/-- `Colors = [Color; 4]` from `src/palette.rs`. -/
structure Colors where
  c0 : Color
  c1 : Color
  c2 : Color
  c3 : Color
deriving DecidableEq, Repr

/-- `struct Palette` from `src/palette.rs`: four 4-color groups and `lcd_off`. -/
structure Palette where
  bg : Colors
  obj0 : Colors
  obj1 : Colors
  window : Colors
  lcd_off : Color
deriving DecidableEq, Repr

/-- `impl Default for Palette` from `src/palette.rs`. -/
def Palette.defaultPalette : Palette :=
  { bg := ⟨⟨0, 0, 0⟩, ⟨32, 32, 32⟩, ⟨64, 64, 64⟩, ⟨128, 128, 128⟩⟩
    obj0 := ⟨⟨0, 255, 0⟩, ⟨32, 255, 32⟩, ⟨64, 255, 64⟩, ⟨128, 255, 128⟩⟩
    obj1 := ⟨⟨0, 0, 255⟩, ⟨32, 32, 255⟩, ⟨64, 64, 255⟩, ⟨128, 128, 255⟩⟩
    window := ⟨⟨255, 0, 0⟩, ⟨255, 32, 32⟩, ⟨255, 64, 64⟩, ⟨255, 128, 128⟩⟩
    lcd_off := ⟨255, 0, 255⟩ }

/-- The byte sequence of one color, as produced by flattening a `Color` in
`Palette::save` (`self.lcd_off.to_vec()` / `into_iter().flatten()`). -/
def Color.toBytes (c : Color) : List Nat := [c.r, c.g, c.b]

/-- The byte sequence of a 4-color group, `cs.into_iter().flatten().collect()`
in `Palette::save`. -/
def Colors.toBytes (cs : Colors) : List Nat :=
  cs.c0.toBytes ++ cs.c1.toBytes ++ cs.c2.toBytes ++ cs.c3.toBytes

/-- The 5-byte footer written unconditionally at the end of `Palette::save`. -/
def footerBytes : List Nat := [0x81, 0x41, 0x50, 0x47, 0x42]

/-- `Palette::save` from `src/palette.rs`, as the byte sequence written to the
file: `bg`, `obj0`, `obj1`, `window`, `lcd_off` and then the footer. -/
def Palette.save (p : Palette) : List Nat :=
  p.bg.toBytes ++ p.obj0.toBytes ++ p.obj1.toBytes ++ p.window.toBytes ++
    p.lcd_off.toBytes ++ footerBytes

/-- The fatal conditions of `Palette::load`: the explicit 56-byte length check
(`panic!("Palette file should have exactly 56 bytes ...")`), and the
`data_to_array!` slicing (`expect("Cannot convert vec to fixed size array")`),
which can only fail out of range. -/
inductive LoadError where
  | invalidSize (len : Nat)
  | sliceOutOfRange
deriving DecidableEq, Repr

/-- The footer comparison in `Palette::load`:
`data[51] == 0x81 && data[52] == 0x41 && data[53] == 0x50 && data[54] == 0x47 && data[55] == 0x42`.
On mismatch the code merely logs
"Footer of palette file is incorrect, will try to read anyway". -/
def footerOk (data : List Nat) : Bool :=
  data[51]? == some 0x81 && data[52]? == some 0x41 && data[53]? == some 0x50 &&
    data[54]? == some 0x47 && data[55]? == some 0x42

/-- Outcome of a successful `Palette::load`: the decoded palette together with
the result of the footer check (which the code only reports in the log, with
`debug!` when correct and `error!` when incorrect). -/
structure LoadResult where
  footerCorrect : Bool
  palette : Palette
deriving DecidableEq, Repr

/-- `data_to_array!(data, s)`: the slice `data[s..s + 3]` as one `Color`;
`none` models the `expect` panic when the slice is out of range. -/
def colorAt (data : List Nat) (s : Nat) : Option Color :=
  match data[s]?, data[s + 1]?, data[s + 2]? with
  | some r, some g, some b => some ⟨r, g, b⟩
  | _, _, _ => none

/-- `data_to_multi_array!(data, s)`: four consecutive `data_to_array!` slices
at `s`, `s + 3`, `s + 6`, `s + 9`. -/
def colorsAt (data : List Nat) (s : Nat) : Option Colors :=
  match colorAt data s, colorAt data (s + 3), colorAt data (s + 6),
      colorAt data (s + 9) with
  | some a, some b, some c, some d => some ⟨a, b, c, d⟩
  | _, _, _, _ => none

/-- `Palette::load` from `src/palette.rs` on the bytes read from the file:
panics (here: `.error (.invalidSize _)`) unless the input has exactly 56
bytes; then checks the footer (recording, not failing) and slices the five
color fields at offsets 0, 12, 24, 36 and 48. -/
def Palette.load (data : List Nat) : Except LoadError LoadResult :=
  if data.length = 56 then
    match colorsAt data 0, colorsAt data 12, colorsAt data 24, colorsAt data 36,
        colorAt data 48 with
    | some bg, some o0, some o1, some w, some lcd =>
        .ok ⟨footerOk data, ⟨bg, o0, o1, w, lcd⟩⟩
    | _, _, _, _, _ => .error .sliceOutOfRange
  else .error (.invalidSize data.length)

/-! ## The 256-slot output palette (`src/png_helper.rs`) -/

/-- `enum Error` from `src/png_helper.rs`. -/
inductive PngError where
  | arrayTooBig
deriving DecidableEq, Repr

/-- `struct PngPalette` from `src/png_helper.rs`: a `[u8; 256 * 3]` color
table plus the append cursor `index`. -/
structure PngPalette where
  pal : List Nat
  index : Nat
deriving DecidableEq, Repr

/-- `PngPalette::SIZE = 256 * 3`. -/
def PngPalette.SIZE : Nat := 256 * 3

/-- `PngPalette::new`: all bytes 255 (white), cursor 0. -/
def PngPalette.new : PngPalette := ⟨List.replicate PngPalette.SIZE 255, 0⟩

/-- The write loop of `TryFrom<&[u8]> for PngPalette`:
`value.iter().enumerate().for_each(|(i, v)| array[i] = *v)`. -/
def writeAll (arr value : List Nat) : List Nat :=
  value.enum.foldl (fun a iv => a.set iv.1 iv.2) arr

/-- `TryFrom<&[u8]> for PngPalette` from `src/png_helper.rs`: rejects a slice
of length ≥ `SIZE` with `ArrayTooBig`; otherwise overwrites the front of an
all-255 array with the slice's bytes, cursor 0. -/
def PngPalette.tryFrom (value : List Nat) : Except PngError PngPalette :=
  if PngPalette.SIZE ≤ value.length then .error .arrayTooBig
  else .ok ⟨writeAll (List.replicate PngPalette.SIZE 255) value, 0⟩

/-- `PngPalette::set`: writes the three bytes of `color` at slot `index` and
returns `true` when `index < 256`; otherwise returns `false` leaving the
palette untouched.  The cursor is not modified by `set`. -/
def PngPalette.set (p : PngPalette) (index : Nat) (color : Color) :
    PngPalette × Bool :=
  if index < 256 then
    (⟨((p.pal.set (index * 3) color.r).set (index * 3 + 1) color.g).set
        (index * 3 + 2) color.b, p.index⟩, true)
  else (p, false)

/-- `PngPalette::push`: `set` at the cursor, advancing the cursor only when
the `set` succeeded. -/
def PngPalette.push (p : PngPalette) (color : Color) : PngPalette × Bool :=
  let r := p.set p.index color
  if r.2 then (⟨r.1.pal, r.1.index + 1⟩, true) else (r.1, false)

/-! ## Mutation sequences on `PngPalette` -/

/-- One call to a public mutator of `PngPalette` (`push` or `set`). -/
inductive PalOp where
  | pushOp (color : Color)
  | setOp (index : Nat) (color : Color)

/-- Execute one mutator call, keeping the resulting palette state. -/
def applyOp (p : PngPalette) : PalOp → PngPalette
  | .pushOp c => (p.push c).1
  | .setOp i c => (p.set i c).1

/-- Execute a sequence of mutator calls in order. -/
def applyOps (p : PngPalette) (ops : List PalOp) : PngPalette :=
  ops.foldl applyOp p

/-! ## The tolerance matcher and the index-buffer recolorer -/

/-- `self.pal.chunks_exact(3)` in `PngPalette::index_of_with_tolerance`:
the byte array split into 3-byte colors, any incomplete remainder dropped. -/
def toColors : List Nat → List Color
  | r :: g :: b :: rest => ⟨r, g, b⟩ :: toColors rest
  | _ => []

/-- itertools' `find_position`: the first element satisfying the predicate,
together with its position. -/
def findPosition {α : Type} (p : α → Bool) : List α → Option (Nat × α)
  | [] => none
  | x :: xs =>
    if p x then some (0, x)
    else (findPosition p xs).map (fun q => (q.1 + 1, q.2))

/-- `u8::saturating_sub` (on values ≤ 255 this is exactly `Nat` subtraction,
which truncates at 0). -/
def satSub (a b : Nat) : Nat := a - b

/-- `u8::saturating_add` (capped at `u8::MAX = 255`). -/
def satAdd (a b : Nat) : Nat := min (a + b) 255

/-- One channel of the tolerance test in `index_of_with_tolerance`:
`(color[i].saturating_sub(tolerance)..=color[i].saturating_add(tolerance)).contains(x)`. -/
def channelInTolerance (pixelCh entryCh tolerance : Nat) : Bool :=
  decide (satSub pixelCh tolerance ≤ entryCh) &&
    decide (entryCh ≤ satAdd pixelCh tolerance)

/-- The whole-color tolerance test
(`c.iter().enumerate().all(...)` over the three channels). -/
def colorInTolerance (pixel entry : Color) (tolerance : Nat) : Bool :=
  channelInTolerance pixel.r entry.r tolerance &&
    channelInTolerance pixel.g entry.g tolerance &&
    channelInTolerance pixel.b entry.b tolerance

/-- `PngPalette::index_of_with_tolerance` from `src/png_helper.rs`: position
of the first 3-byte palette entry whose every channel lies in the pixel's
saturating tolerance window. -/
def PngPalette.indexOfWithTolerance (p : PngPalette) (color : Color)
    (tolerance : Nat) : Option Nat :=
  (findPosition (fun c => colorInTolerance color c tolerance)
    (toColors p.pal)).map Prod.fst

/-- Modelled from the spec: the `From<Palette> for Vec<u8>` conversion used by
`PngPalette::from(Palette)` in `src/png_helper.rs` is not present in the
sources (only this caller is, asserting it yields "exactly 17 * 3 bytes").
Per the spec the 17 colors are laid out positionally: `bg` at offset 0,
`obj0` at 12, `obj1` at 24, `window` at 36, `lcd_off` at 48 — 51 bytes. -/
def paletteBytes17 (p : Palette) : List Nat :=
  p.bg.toBytes ++ p.obj0.toBytes ++ p.obj1.toBytes ++ p.window.toBytes ++
    p.lcd_off.toBytes

/-- `From<Palette> for PngPalette` from `src/png_helper.rs`: the palette's 51
bytes `try_into`-ed into the 256-slot table (front-filled, rest stays white).
The source `unwrap`s; the error arm is unreachable since 51 < 768 (modelled
with a fresh palette). -/
def pngPaletteOfPalette (p : Palette) : PngPalette :=
  match PngPalette.tryFrom (paletteBytes17 p) with
  | .ok q => q
  | .error _ => PngPalette.new

/-- One pixel of the index-buffer construction in
`ImageHandler::palettize_image` (`src/image_handler.rs`): the buffer entry
stays at its initial `255_u8` unless the tolerance-8 matcher finds a slot, in
which case the slot index is written (cast `as u8`, i.e. mod 256). -/
def palettizeStep (template : PngPalette) (color : Color) : Nat :=
  match template.indexOfWithTolerance color 8 with
  | some colorIndex => colorIndex % 256
  | none => 255

/-- The index buffer built by `ImageHandler::palettize_image` over the
image's pixels in row-major order: the buffer has one entry per pixel and
position `k` receives `palettizeStep` of pixel `k`. -/
def palettizeImage (template : PngPalette) (pixels : List Color) : List Nat :=
  pixels.map (palettizeStep template)

/-! ## Coverage reporting, scale validation and merge geometry
(`src/image_handler.rs`) -/

/-- `ImageHandler::find_unique_colors`: the distinct pixel colors of the
image (the alpha channel is dropped on read); the `HashSet` is modelled by
`dedup`, whose length is the number of distinct colors. -/
def findUniqueColors (pixels : List Color) : List Color := pixels.dedup

/-- `ImageHandler::ALMOST_ALL_COLORS = 16`: the template color count not
counting `lcd_off`. -/
def ALMOST_ALL_COLORS : Nat := 16

/-- The coverage percentage computed at the top of
`ImageHandler::palettize_image`:
`colors.len() as f32 / Self::ALMOST_ALL_COLORS as f32 * 100.0`.  Modelled in
`ℚ`: at the magnitudes involved the `f32` computation is exact (an integer
count below 2^19 divided by the power of two 16, times 100), and the
`>= 100.0` comparison agrees with the rational comparison for every count. -/
def percentageOfColors (pixels : List Color) : ℚ :=
  ((findUniqueColors pixels).length : ℚ) / (ALMOST_ALL_COLORS : ℚ) * 100

/-- The reporting branch of `palettize_image`: an informational line (no
warning) exactly when the percentage is `>= 100.0`, otherwise a warning
carrying the computed percentage. -/
def coverageWarns (pixels : List Color) : Bool :=
  !(decide ((100 : ℚ) ≤ percentageOfColors pixels))

/-- The fatal scale check of `ImageHandler::color_image`:
`panic!("Scale must be between 1 and 20")`. -/
inductive ScaleError where
  | invalidScale
deriving DecidableEq, Repr

/-- The scale handling at the end of `ImageHandler::color_image`
(`src/image_handler.rs`): panics unless `(1..=20).contains(&scale)`, then
resizes the colorized image to `width * scale` by `height * scale` (`u32`
arithmetic, hence mod 2^32; the `image` crate's `resize` with
`FilterType::Nearest` returns exactly the requested dimensions because the
target is proportional to the source). -/
def colorImageScale (width height scale : Nat) :
    Except ScaleError (Nat × Nat) :=
  if 1 ≤ scale ∧ scale ≤ 20 then
    .ok (width * scale % 2 ^ 32, height * scale % 2 ^ 32)
  else .error .invalidScale

/-- `enum MergeLayout` from `src/image_handler.rs`. -/
inductive MergeLayout where
  | horizontal
  | vertical
deriving DecidableEq, Repr

/-- The per-image loop of `ImageHandler::color_images` as it affects the
collected tile list: in merge mode nothing is saved per image and the
`images_to_merge.push(output_image)` statement is commented out in the
source, so the accumulator comes out of the loop unchanged — empty. -/
def imagesToMergeAfterLoop (inputImages : List (Nat × Nat)) :
    List (Nat × Nat) :=
  inputImages.foldl (fun acc _ => acc) []

/-- The merged-canvas dimensions computed in the merge branch of
`ImageHandler::color_images` (`src/image_handler.rs`), with images as
(width, height) pairs: the width sums the widths of the first `max_columns`
collected images, the height sums each `max_columns`-chunk's maximal height
(the source's `max().unwrap()` is total here via `getD 0`; it is only ever
applied to nonempty chunks), and a Vertical layout swaps the two. -/
def mergedCanvasSize (inputImages : List (Nat × Nat)) (maxColumns : Nat)
    (layout : MergeLayout) : Nat × Nat :=
  let imagesToMerge := imagesToMergeAfterLoop inputImages
  let width := ((imagesToMerge.take maxColumns).map Prod.fst).sum
  let height :=
    ((List.toChunks maxColumns imagesToMerge).map
      (fun chunk => ((chunk.map Prod.snd).max?).getD 0)).sum
  match layout with
  | .horizontal => (width, height)
  | .vertical => (height, width)

section PaletteCodecLemmas

lemma colorAt_eq_some (data : List Nat) (s : Nat) (h : s + 2 < data.length) :
    ∃ c, colorAt data s = some c := by
  have h0 : s < data.length := by omega
  have h1 : s + 1 < data.length := by omega
  refine ⟨⟨data[s], data[s + 1], data[s + 2]⟩, ?_⟩
  simp [colorAt, List.getElem?_eq_getElem, h0, h1, h]

lemma colorsAt_eq_some (data : List Nat) (s : Nat) (h : s + 11 < data.length) :
    ∃ cs, colorsAt data s = some cs := by
  obtain ⟨a, ha⟩ := colorAt_eq_some data s (by omega)
  obtain ⟨b, hb⟩ := colorAt_eq_some data (s + 3) (by omega)
  obtain ⟨c, hc⟩ := colorAt_eq_some data (s + 6) (by omega)
  obtain ⟨d, hd⟩ := colorAt_eq_some data (s + 9) (by omega)
  exact ⟨⟨a, b, c, d⟩, by simp [colorsAt, ha, hb, hc, hd]⟩

/-- On any 56-byte input, `Palette.load` succeeds and records the footer
check's outcome; no slice is ever out of range. -/
lemma load_length_56 (data : List Nat) (h : data.length = 56) :
    ∃ p, Palette.load data = .ok ⟨footerOk data, p⟩ := by
  obtain ⟨bg, hbg⟩ := colorsAt_eq_some data 0 (by omega)
  obtain ⟨o0, ho0⟩ := colorsAt_eq_some data 12 (by omega)
  obtain ⟨o1, ho1⟩ := colorsAt_eq_some data 24 (by omega)
  obtain ⟨w, hw⟩ := colorsAt_eq_some data 36 (by omega)
  obtain ⟨lcd, hlcd⟩ := colorAt_eq_some data 48 (by omega)
  exact ⟨⟨bg, o0, o1, w, lcd⟩, by simp [Palette.load, h, hbg, ho0, ho1, hw, hlcd]⟩

end PaletteCodecLemmas

set_option maxHeartbeats 1600000 in
/-- C1: `Palette::save` emits exactly 56 bytes ending in the fixed signature,
and `Palette::load` decodes them back to the very same 17 colors. -/
theorem save_load_roundtrip (p : Palette) :
    (Palette.save p).length = 56 ∧
    (Palette.save p).drop 51 = [0x81, 0x41, 0x50, 0x47, 0x42] ∧
    Palette.load (Palette.save p) = .ok ⟨true, p⟩ := by
  obtain ⟨⟨⟨_, _, _⟩, ⟨_, _, _⟩, ⟨_, _, _⟩, ⟨_, _, _⟩⟩,
    ⟨⟨_, _, _⟩, ⟨_, _, _⟩, ⟨_, _, _⟩, ⟨_, _, _⟩⟩,
    ⟨⟨_, _, _⟩, ⟨_, _, _⟩, ⟨_, _, _⟩, ⟨_, _, _⟩⟩,
    ⟨⟨_, _, _⟩, ⟨_, _, _⟩, ⟨_, _, _⟩, ⟨_, _, _⟩⟩, ⟨_, _, _⟩⟩ := p
  refine ⟨rfl, rfl, ?_⟩
  rfl

/-- C2, counterexample: a 56-byte input whose trailing 5 bytes are not the
signature is nevertheless decoded successfully — `Palette::load` merely
records the incorrect footer and parses anyway, producing a palette. -/
theorem load_bad_footer_still_succeeds :
    footerOk (List.replicate 56 7) = false ∧
    Palette.load (List.replicate 56 7) =
      .ok ⟨false, ⟨⟨⟨7, 7, 7⟩, ⟨7, 7, 7⟩, ⟨7, 7, 7⟩, ⟨7, 7, 7⟩⟩,
        ⟨⟨7, 7, 7⟩, ⟨7, 7, 7⟩, ⟨7, 7, 7⟩, ⟨7, 7, 7⟩⟩,
        ⟨⟨7, 7, 7⟩, ⟨7, 7, 7⟩, ⟨7, 7, 7⟩, ⟨7, 7, 7⟩⟩,
        ⟨⟨7, 7, 7⟩, ⟨7, 7, 7⟩, ⟨7, 7, 7⟩, ⟨7, 7, 7⟩⟩, ⟨7, 7, 7⟩⟩⟩ := by
  constructor <;> rfl

/-- C2, amended: on a 56-byte input whose last 5 bytes differ from the fixed
signature, `Palette::load` reports the incorrect footer (as a logged error)
but does not fail: parsing continues and produces a Palette. -/
theorem load_bad_footer_reports_and_continues (data : List Nat)
    (hlen : data.length = 56) (hfoot : footerOk data = false) :
    ∃ p, Palette.load data = .ok ⟨false, p⟩ := by
  obtain ⟨p, hp⟩ := load_length_56 data hlen
  exact ⟨p, by rw [hp, hfoot]⟩

/-- Witness for `load_bad_footer_reports_and_continues` at the all-sevens
56-byte input. -/
theorem load_bad_footer_reports_and_continues_witness :
    ∃ p, Palette.load (List.replicate 56 7) = .ok ⟨false, p⟩ :=
  load_bad_footer_reports_and_continues (List.replicate 56 7) (by decide)
    (by decide)

/-- C6: `Palette::load` aborts with the invalid-size error on every input
whose length is not 56 — before any slicing, since the result does not depend
on the bytes — and on every 56-byte input it succeeds, so no out-of-range
slice is ever taken. -/
theorem load_size_validation (data : List Nat) :
    (data.length ≠ 56 → Palette.load data = .error (.invalidSize data.length)) ∧
    (data.length = 56 → ∃ r, Palette.load data = .ok r) := by
  constructor
  · intro h
    simp [Palette.load, h]
  · intro h
    obtain ⟨p, hp⟩ := load_length_56 data h
    exact ⟨_, hp⟩

/-- Witness for `load_size_validation`: a 3-byte input is rejected as invalid
size, a 56-byte input decodes. -/
theorem load_size_validation_witness :
    Palette.load [1, 2, 3] = .error (.invalidSize 3) ∧
    ∃ r, Palette.load (List.replicate 56 0) = .ok r :=
  ⟨(load_size_validation [1, 2, 3]).1 (by decide),
    (load_size_validation (List.replicate 56 0)).2 (by decide)⟩

section WriteAllLemmas

lemma foldl_set_enumFrom_getElem (value : List Nat) :
    ∀ (arr : List Nat) (k : Nat), k + value.length ≤ arr.length → ∀ j,
      ((List.enumFrom k value).foldl (fun a iv => a.set iv.1 iv.2) arr)[j]? =
        if k ≤ j ∧ j < k + value.length then value[j - k]? else arr[j]? := by
  induction value with
  | nil =>
    intro arr k h j
    have hcond : ¬(k ≤ j ∧ j < k + ([] : List Nat).length) := by
      simp only [List.length_nil]; omega
    rw [if_neg hcond]
    rfl
  | cons v rest ih =>
    intro arr k h j
    have hk : k < arr.length := by
      simp only [List.length_cons] at h; omega
    have hrest : (k + 1) + rest.length ≤ (arr.set k v).length := by
      simp only [List.length_set]
      simp only [List.length_cons] at h; omega
    rw [List.enumFrom_cons, List.foldl_cons, ih (arr.set k v) (k + 1) hrest j]
    by_cases h1 : (k + 1 ≤ j ∧ j < k + 1 + rest.length)
    · have h2 : k ≤ j ∧ j < k + (v :: rest).length := by
        simp only [List.length_cons]; omega
      rw [if_pos h1, if_pos h2]
      have hjk : j - k = (j - (k + 1)) + 1 := by omega
      rw [hjk]
      simp
    · rw [if_neg h1]
      by_cases h3 : j = k
      · subst h3
        have h2 : j ≤ j ∧ j < j + (v :: rest).length := by
          simp only [List.length_cons]; omega
        rw [if_pos h2, List.getElem?_set_self hk]
        simp
      · rw [List.getElem?_set_ne (fun hkj => h3 hkj.symm)]
        have h2 : ¬(k ≤ j ∧ j < k + (v :: rest).length) := by
          simp only [List.length_cons]; omega
        rw [if_neg h2]

/-- The in-place overwrite of the front of `arr` by `value` is `value`
followed by the untouched tail of `arr`. -/
lemma writeAll_eq_append (arr value : List Nat) (h : value.length ≤ arr.length) :
    writeAll arr value = value ++ arr.drop value.length := by
  apply List.ext_getElem?
  intro j
  have := foldl_set_enumFrom_getElem value arr 0 (by omega) j
  rw [writeAll, List.enum, this]
  by_cases hj : j < value.length
  · rw [if_pos ⟨Nat.zero_le j, by omega⟩, List.getElem?_append]
    simp [hj]
  · rw [if_neg (by omega), List.getElem?_append]
    rw [if_neg (by omega)]
    simp [List.getElem?_drop]
    congr 1
    omega

/-- `try_from` on a slice shorter than 768 bytes: the slice's bytes land at
the front, the remaining entries keep the initial 255. -/
lemma tryFrom_ok_of_lt (value : List Nat) (h : value.length < 768) :
    PngPalette.tryFrom value =
      .ok ⟨value ++ List.replicate (768 - value.length) 255, 0⟩ := by
  have hsize : PngPalette.SIZE = 768 := rfl
  rw [PngPalette.tryFrom, if_neg (by rw [hsize]; omega)]
  rw [writeAll_eq_append _ _ (by rw [List.length_replicate, hsize]; omega)]
  rw [List.drop_replicate, hsize]

/-- `try_from` on a slice of 768 bytes or more is rejected. -/
lemma tryFrom_err_of_le (value : List Nat) (h : 768 ≤ value.length) :
    PngPalette.tryFrom value = .error .arrayTooBig := by
  have hsize : PngPalette.SIZE = 768 := rfl
  rw [PngPalette.tryFrom, if_pos (by rw [hsize]; omega)]

end WriteAllLemmas

/-- C9: converting a raw byte slice to a `PngPalette` fails with `ArrayTooBig`
exactly when the slice has 768 bytes or more (so a nominally full 768-byte
palette is rejected), and for every shorter slice succeeds with the slice's
bytes at the front, the remaining entries padded with 255 and the cursor
at 0. -/
theorem pngPalette_tryFrom_spec (value : List Nat) :
    (768 ≤ value.length → PngPalette.tryFrom value = .error .arrayTooBig) ∧
    (value.length < 768 →
      PngPalette.tryFrom value =
        .ok ⟨value ++ List.replicate (768 - value.length) 255, 0⟩) :=
  ⟨tryFrom_err_of_le value, tryFrom_ok_of_lt value⟩

/-- Witness for `pngPalette_tryFrom_spec`: a full 768-byte slice is rejected,
a 3-byte slice is copied to the front and padded with 255. -/
theorem pngPalette_tryFrom_spec_witness :
    PngPalette.tryFrom (List.replicate 768 0) = .error .arrayTooBig ∧
    PngPalette.tryFrom [1, 2, 3] =
      .ok ⟨[1, 2, 3] ++ List.replicate 765 255, 0⟩ :=
  ⟨(pngPalette_tryFrom_spec (List.replicate 768 0)).1
      (by rw [List.length_replicate]),
    (pngPalette_tryFrom_spec [1, 2, 3]).2 (by decide)⟩

lemma applyOps_index_le (ops : List PalOp) :
    ∀ p : PngPalette, p.index ≤ 256 → (applyOps p ops).index ≤ 256 := by
  induction ops with
  | nil => intro p hp; exact hp
  | cons op rest ih =>
    intro p hp
    have hstep : (applyOp p op).index ≤ 256 := by
      cases op with
      | pushOp c =>
        by_cases h : p.index < 256 <;>
          simp [applyOp, PngPalette.push, PngPalette.set, h] <;> omega
      | setOp i c =>
        by_cases h : i < 256 <;>
          simp [applyOp, PngPalette.set, h] <;> omega
    simpa [applyOps, List.foldl_cons] using ih (applyOp p op) hstep

/-- C10: `set` succeeds exactly on indices below 256, writes the three bytes
of the color at the slot (leaving every other byte alone) and never moves the
cursor; out-of-range `set` leaves the palette untouched.  `push` succeeds
exactly when the cursor is below 256 and advances the cursor only then; hence
over any sequence of `push`/`set` calls the cursor never exceeds 256, and a
`push` on a full palette returns `false` changing nothing. -/
theorem pngPalette_set_push_invariant (p : PngPalette) (i : Nat) (c : Color)
    (ops : List PalOp) :
    ((p.set i c).2 = true ↔ i < 256) ∧
    (¬ i < 256 → (p.set i c).1 = p) ∧
    (i < 256 → p.pal.length = 768 → ∀ j, j < 768 →
      ((p.set i c).1.pal)[j]? =
        if j = i * 3 then some c.r
        else if j = i * 3 + 1 then some c.g
        else if j = i * 3 + 2 then some c.b
        else p.pal[j]?) ∧
    ((p.set i c).1.index = p.index) ∧
    ((p.push c).2 = true ↔ p.index < 256) ∧
    ((p.push c).1.index = if p.index < 256 then p.index + 1 else p.index) ∧
    (p.index ≤ 256 → (applyOps p ops).index ≤ 256) ∧
    (256 ≤ p.index → p.push c = (p, false)) := by
  refine ⟨?_, ?_, ?_, ?_, ?_, ?_, fun hp => applyOps_index_le ops p hp, ?_⟩
  · by_cases h : i < 256 <;> simp [PngPalette.set, h]
  · intro h
    simp [PngPalette.set, h]
  · intro hi hlen j hj
    have l0 : p.pal.length = 768 := hlen
    have l1 : (p.pal.set (i * 3) c.r).length = 768 := by
      simp [List.length_set, hlen]
    have l2 : ((p.pal.set (i * 3) c.r).set (i * 3 + 1) c.g).length = 768 := by
      simp [List.length_set, hlen]
    simp only [PngPalette.set, if_pos hi]
    rw [List.getElem?_set, List.getElem?_set, List.getElem?_set, l2, l1, l0]
    split_ifs <;> first | rfl | omega
  · by_cases h : i < 256 <;> simp [PngPalette.set, h]
  · by_cases h : p.index < 256 <;> simp [PngPalette.push, PngPalette.set, h]
  · by_cases h : p.index < 256 <;> simp [PngPalette.push, PngPalette.set, h]
  · intro h
    have hni : ¬ p.index < 256 := by omega
    simp [PngPalette.push, PngPalette.set, hni]

/-- Witness for `pngPalette_set_push_invariant`: `set 0` on a fresh palette
succeeds and writes the red byte at offset 0, a `push` sequence keeps the
cursor within 256, and `push` on a full palette is a rejected no-op. -/
theorem pngPalette_set_push_invariant_witness :
    (PngPalette.new.set 0 ⟨1, 2, 3⟩).2 = true ∧
    ((PngPalette.new.set 0 ⟨1, 2, 3⟩).1.pal)[0]? = some 1 ∧
    (applyOps PngPalette.new [PalOp.pushOp ⟨4, 5, 6⟩]).index ≤ 256 ∧
    PngPalette.push ⟨List.replicate 768 255, 256⟩ ⟨7, 8, 9⟩ =
      (⟨List.replicate 768 255, 256⟩, false) := by
  have hlen : PngPalette.new.pal.length = 768 := by
    rw [show PngPalette.new.pal = List.replicate PngPalette.SIZE 255 from rfl,
      List.length_replicate]
    rfl
  refine ⟨?_, ?_, ?_, ?_⟩
  · exact (pngPalette_set_push_invariant PngPalette.new 0 ⟨1, 2, 3⟩ []).1.mpr
      (by omega)
  · rw [(pngPalette_set_push_invariant PngPalette.new 0 ⟨1, 2, 3⟩ []).2.2.1
      (by omega) hlen 0 (by omega)]
    rfl
  · exact (pngPalette_set_push_invariant PngPalette.new 0 ⟨0, 0, 0⟩
      [PalOp.pushOp ⟨4, 5, 6⟩]).2.2.2.2.2.2.1 (by decide)
  · exact (pngPalette_set_push_invariant ⟨List.replicate 768 255, 256⟩ 0
      ⟨7, 8, 9⟩ []).2.2.2.2.2.2.2 (by decide)

section MatcherLemmas

lemma findPosition_eq_some_iff {α : Type} (p : α → Bool) :
    ∀ (l : List α) (i : Nat) (x : α),
      findPosition p l = some (i, x) ↔
        (l[i]? = some x ∧ p x = true ∧
          ∀ j, j < i → ∀ y, l[j]? = some y → p y = false) := by
  intro l
  induction l with
  | nil =>
    intro i x
    simp [findPosition]
  | cons a as ih =>
    intro i x
    rw [findPosition]
    by_cases hpa : p a
    · rw [if_pos hpa]
      constructor
      · intro h
        simp only [Option.some.injEq, Prod.mk.injEq] at h
        obtain ⟨hi, hx⟩ := h
        subst hi
        subst hx
        exact ⟨by simp, hpa, fun j hj => absurd hj (by omega)⟩
      · rintro ⟨hget, hpx, hmin⟩
        rcases Nat.eq_zero_or_pos i with hi | hi
        · subst hi
          simp only [List.getElem?_cons_zero, Option.some.injEq] at hget
          subst hget
          rfl
        · have := hmin 0 hi a (by simp)
          rw [hpa] at this
          cases this
    · rw [if_neg hpa]
      constructor
      · intro h
        obtain ⟨⟨i', x'⟩, hq, hfx⟩ := Option.map_eq_some'.mp h
        simp only [Prod.mk.injEq] at hfx
        obtain ⟨hi, hx⟩ := hfx
        subst hi
        subst hx
        obtain ⟨hget, hpx, hmin⟩ := (ih i' x').mp hq
        refine ⟨by simpa using hget, hpx, ?_⟩
        intro j hj y hy
        cases j with
        | zero =>
          simp only [List.getElem?_cons_zero, Option.some.injEq] at hy
          subst hy
          exact Bool.eq_false_iff.mpr hpa
        | succ j' =>
          exact hmin j' (by omega) y (by simpa using hy)
      · rintro ⟨hget, hpx, hmin⟩
        cases i with
        | zero =>
          simp only [List.getElem?_cons_zero, Option.some.injEq] at hget
          subst hget
          exact absurd hpx (Bool.eq_false_iff.mp (Bool.eq_false_iff.mpr hpa))
        | succ i' =>
          refine Option.map_eq_some'.mpr ⟨(i', x), (ih i' x).mpr
            ⟨by simpa using hget, hpx, ?_⟩, rfl⟩
          intro j' hj' y hy
          exact hmin (j' + 1) (by omega) y (by simpa using hy)

/-- Characterization of the matcher: it answers `some i` exactly when entry
`i` passes the tolerance test and every earlier entry fails it. -/
lemma indexOfWithTolerance_eq_some (p : PngPalette) (color : Color)
    (t i : Nat) :
    p.indexOfWithTolerance color t = some i ↔
      ∃ c, (toColors p.pal)[i]? = some c ∧ colorInTolerance color c t = true ∧
        ∀ j, j < i → ∀ c', (toColors p.pal)[j]? = some c' →
          colorInTolerance color c' t = false := by
  unfold PngPalette.indexOfWithTolerance
  constructor
  · intro h
    obtain ⟨⟨i', x⟩, hq, hfst⟩ := Option.map_eq_some'.mp h
    have hi : i' = i := hfst
    subst hi
    obtain ⟨hget, hpx, hmin⟩ := (findPosition_eq_some_iff _ _ _ _).mp hq
    exact ⟨x, hget, hpx, hmin⟩
  · rintro ⟨c, hget, hc, hmin⟩
    exact Option.map_eq_some'.mpr
      ⟨(i, c), (findPosition_eq_some_iff _ _ _ _).mpr ⟨hget, hc, hmin⟩, rfl⟩

lemma colorInTolerance_iff (pixel c : Color) (t : Nat) :
    colorInTolerance pixel c t = true ↔
      ((pixel.r - t ≤ c.r ∧ c.r ≤ min (pixel.r + t) 255) ∧
        (pixel.g - t ≤ c.g ∧ c.g ≤ min (pixel.g + t) 255) ∧
        (pixel.b - t ≤ c.b ∧ c.b ≤ min (pixel.b + t) 255)) := by
  simp [colorInTolerance, channelInTolerance, satSub, satAdd, and_assoc]

end MatcherLemmas

section TemplateShapeLemmas

lemma toBytes_append_toColors (c : Color) (rest : List Nat) :
    toColors (c.toBytes ++ rest) = c :: toColors rest := by
  cases c
  rfl

lemma paletteBytes17_length (p : Palette) : (paletteBytes17 p).length = 51 := by
  simp [paletteBytes17, Colors.toBytes, Color.toBytes]

lemma toColors_replicate255 : ∀ n, toColors (List.replicate (3 * n) 255) =
    List.replicate n ⟨255, 255, 255⟩ := by
  intro n
  induction n with
  | zero => rfl
  | succ m ih =>
    have h3 : 3 * (m + 1) = 3 * m + 1 + 1 + 1 := by ring
    rw [h3, List.replicate_succ, List.replicate_succ, List.replicate_succ,
      List.replicate_succ]
    rw [show toColors (255 :: 255 :: 255 :: List.replicate (3 * m) 255) =
      ⟨255, 255, 255⟩ :: toColors (List.replicate (3 * m) 255) from rfl, ih]

lemma pngPaletteOfPalette_pal (tp : Palette) :
    (pngPaletteOfPalette tp).pal =
      paletteBytes17 tp ++ List.replicate 717 255 := by
  unfold pngPaletteOfPalette
  rw [tryFrom_ok_of_lt _ (by rw [paletteBytes17_length]; omega),
    paletteBytes17_length]

lemma toColors_pngPaletteOfPalette (tp : Palette) :
    toColors (pngPaletteOfPalette tp).pal =
      [tp.bg.c0, tp.bg.c1, tp.bg.c2, tp.bg.c3,
       tp.obj0.c0, tp.obj0.c1, tp.obj0.c2, tp.obj0.c3,
       tp.obj1.c0, tp.obj1.c1, tp.obj1.c2, tp.obj1.c3,
       tp.window.c0, tp.window.c1, tp.window.c2, tp.window.c3,
       tp.lcd_off] ++ List.replicate 239 ⟨255, 255, 255⟩ := by
  rw [pngPaletteOfPalette_pal, paletteBytes17, Colors.toBytes, Colors.toBytes,
    Colors.toBytes, Colors.toBytes]
  simp only [List.append_assoc, toBytes_append_toColors]
  rw [show (717 : Nat) = 3 * 239 by norm_num, toColors_replicate255]
  rfl

lemma toColors_pal_length (tp : Palette) :
    (toColors (pngPaletteOfPalette tp).pal).length = 256 := by
  rw [toColors_pngPaletteOfPalette, List.length_append, List.length_replicate]
  rfl

/-- Every slot of the converted template from position 17 on is the white
padding entry. -/
lemma pal_slot_white (tp : Palette) (j : Nat) (h17 : 17 ≤ j)
    (h256 : j < 256) :
    (toColors (pngPaletteOfPalette tp).pal)[j]? = some ⟨255, 255, 255⟩ := by
  rw [toColors_pngPaletteOfPalette]
  have hl : ([tp.bg.c0, tp.bg.c1, tp.bg.c2, tp.bg.c3, tp.obj0.c0, tp.obj0.c1,
      tp.obj0.c2, tp.obj0.c3, tp.obj1.c0, tp.obj1.c1, tp.obj1.c2, tp.obj1.c3,
      tp.window.c0, tp.window.c1, tp.window.c2, tp.window.c3,
      tp.lcd_off] : List Color).length = 17 := rfl
  rw [List.getElem?_append, hl, if_neg (by omega), List.getElem?_replicate,
    if_pos (by omega)]

end TemplateShapeLemmas

/-- C4: the matcher answers `some i` exactly when template entry `i` is the
first whose every channel lies in the pixel's saturating tolerance window
`[p[ch] - t, min (p[ch] + t) 255]` (truncated at 0, capped at 255, no
wraparound); being a function of its inputs, the search is deterministic. -/
theorem index_of_with_tolerance_spec (pal : PngPalette) (color : Color)
    (tolerance i : Nat) :
    pal.indexOfWithTolerance color tolerance = some i ↔
      (∃ c, (toColors pal.pal)[i]? = some c ∧
        (color.r - tolerance ≤ c.r ∧ c.r ≤ min (color.r + tolerance) 255) ∧
        (color.g - tolerance ≤ c.g ∧ c.g ≤ min (color.g + tolerance) 255) ∧
        (color.b - tolerance ≤ c.b ∧ c.b ≤ min (color.b + tolerance) 255)) ∧
      ∀ j, j < i → ∀ c, (toColors pal.pal)[j]? = some c →
        ¬((color.r - tolerance ≤ c.r ∧ c.r ≤ min (color.r + tolerance) 255) ∧
          (color.g - tolerance ≤ c.g ∧ c.g ≤ min (color.g + tolerance) 255) ∧
          (color.b - tolerance ≤ c.b ∧ c.b ≤ min (color.b + tolerance) 255)) := by
  rw [indexOfWithTolerance_eq_some]
  constructor
  · rintro ⟨c, hget, hc, hmin⟩
    refine ⟨⟨c, hget, (colorInTolerance_iff color c tolerance).mp hc⟩, ?_⟩
    intro j hj c' hc' hcontr
    have htrue := (colorInTolerance_iff color c' tolerance).mpr hcontr
    rw [hmin j hj c' hc'] at htrue
    cases htrue
  · rintro ⟨⟨c, hget, hw⟩, hmin⟩
    refine ⟨c, hget, (colorInTolerance_iff color c tolerance).mpr hw, ?_⟩
    intro j hj c' hc'
    cases hb : colorInTolerance color c' tolerance
    · rfl
    · exact absurd ((colorInTolerance_iff color c' tolerance).mp hb)
        (hmin j hj c' hc')

/-- Witness for `index_of_with_tolerance_spec`: on the default template
with tolerance 0, the pixel `(0,0,0)` matches exactly slot 0 (`bg_0`). -/
theorem index_of_with_tolerance_spec_witness :
    (pngPaletteOfPalette Palette.defaultPalette).indexOfWithTolerance
      ⟨0, 0, 0⟩ 0 = some 0 :=
  (index_of_with_tolerance_spec _ ⟨0, 0, 0⟩ 0 0).mpr
    ⟨⟨⟨0, 0, 0⟩, by decide, by decide, by decide, by decide⟩,
      fun j hj => absurd hj (by omega)⟩

/-- C3, amended: in the index-buffer recolor path an unmatched pixel keeps
the sentinel 255 (distinct from every index the matcher can write), and
every index written for a matched pixel is at most 17: a template slot index
in 0..=16, or 17 — the first white padding entry of the 256-slot table —
when the pixel matches only the padding. -/
theorem palettize_sentinel_and_range (tp : Palette) (pixels : List Color)
    (k : Nat) (pix : Color) (hpix : pixels[k]? = some pix) :
    ((pngPaletteOfPalette tp).indexOfWithTolerance pix 8 = none →
      (palettizeImage (pngPaletteOfPalette tp) pixels)[k]? = some 255) ∧
    (∀ i, (pngPaletteOfPalette tp).indexOfWithTolerance pix 8 = some i →
      (palettizeImage (pngPaletteOfPalette tp) pixels)[k]? = some i ∧
        i ≤ 17) := by
  have hbuf : (palettizeImage (pngPaletteOfPalette tp) pixels)[k]? =
      some (palettizeStep (pngPaletteOfPalette tp) pix) := by
    rw [palettizeImage, List.getElem?_map, hpix, Option.map_some']
  constructor
  · intro hnone
    rw [hbuf, palettizeStep, hnone]
  · intro i hsome
    have hle : i ≤ 17 := by
      by_contra hgt
      push_neg at hgt
      obtain ⟨c, hget, hc, hmin⟩ :=
        (indexOfWithTolerance_eq_some _ _ _ _).mp hsome
      have hilt : i < 256 := by
        by_contra h256
        push_neg at h256
        rw [List.getElem?_eq_none (by rw [toColors_pal_length]; omega)]
          at hget
        cases hget
      have hcw : c = ⟨255, 255, 255⟩ := by
        have hw := pal_slot_white tp i (by omega) hilt
        rw [hw] at hget
        exact (Option.some.inj hget).symm
      have h17 := pal_slot_white tp 17 (by omega) (by omega)
      have hfalse := hmin 17 (by omega) ⟨255, 255, 255⟩ h17
      rw [hcw] at hc
      rw [hc] at hfalse
      cases hfalse
    refine ⟨?_, hle⟩
    have hstep : palettizeStep (pngPaletteOfPalette tp) pix = i % 256 := by
      rw [palettizeStep, hsome]
    rw [hbuf, hstep, Nat.mod_eq_of_lt (by omega)]

set_option maxHeartbeats 1600000 in
/-- C3, counterexample: with the default template, a pure white pixel is
matched (to the first white padding slot) and the written index is 17, which
is not a template slot index in 0..=16. -/
theorem palettize_white_pixel_gets_17 :
    palettizeImage (pngPaletteOfPalette Palette.defaultPalette)
      [⟨255, 255, 255⟩] = [17] ∧
    (pngPaletteOfPalette Palette.defaultPalette).indexOfWithTolerance
      ⟨255, 255, 255⟩ 8 = some 17 ∧
    ¬(17 ≤ 16) := by
  refine ⟨by decide, by decide, by omega⟩

/-- Witness for `palettize_sentinel_and_range`: pixel `(1,2,3)` matches slot
0 and the buffer gets 0; pixel `(99,99,99)` matches nothing and the buffer
keeps 255. -/
theorem palettize_sentinel_and_range_witness :
    (palettizeImage (pngPaletteOfPalette Palette.defaultPalette)
      [⟨1, 2, 3⟩, ⟨99, 99, 99⟩])[0]? = some 0 ∧
    (palettizeImage (pngPaletteOfPalette Palette.defaultPalette)
      [⟨1, 2, 3⟩, ⟨99, 99, 99⟩])[1]? = some 255 := by
  constructor
  · exact ((palettize_sentinel_and_range Palette.defaultPalette _ 0 ⟨1, 2, 3⟩
      (by decide)).2 0 (by decide)).1
  · exact (palettize_sentinel_and_range Palette.defaultPalette _ 1
      ⟨99, 99, 99⟩ (by decide)).1 (by decide)

/-- C7: coverage is the distinct-color count over 16, as a percentage,
computed before matching; full coverage (no warning) is reported exactly when
the percentage is at least 100; 16 distinct colors give exactly 100% and no
warning, 8 give a 50% warning. -/
theorem coverage_report (pixels : List Color) :
    percentageOfColors pixels = ((pixels.dedup.length : ℚ) / 16) * 100 ∧
    (coverageWarns pixels = false ↔ (100 : ℚ) ≤ percentageOfColors pixels) ∧
    (pixels.dedup.length = 16 →
      percentageOfColors pixels = 100 ∧ coverageWarns pixels = false) ∧
    (pixels.dedup.length = 8 →
      percentageOfColors pixels = 50 ∧ coverageWarns pixels = true) := by
  have haac : (ALMOST_ALL_COLORS : ℚ) = 16 := by norm_num [ALMOST_ALL_COLORS]
  refine ⟨by rw [percentageOfColors, findUniqueColors, haac], ?_, ?_, ?_⟩
  · rw [coverageWarns]
    simp
  · intro h16
    have hp : percentageOfColors pixels = 100 := by
      rw [percentageOfColors, findUniqueColors, haac, h16]
      norm_num
    exact ⟨hp, by rw [coverageWarns, hp]; decide⟩
  · intro h8
    have hp : percentageOfColors pixels = 50 := by
      rw [percentageOfColors, findUniqueColors, haac, h8]
      norm_num
    exact ⟨hp, by rw [coverageWarns, hp]; decide⟩

/-- Witness for `coverage_report`: a 16-distinct-color image reports 100%
with no warning; an 8-distinct-color image reports 50% with a warning. -/
theorem coverage_report_witness :
    percentageOfColors [⟨0, 0, 0⟩, ⟨1, 0, 0⟩, ⟨2, 0, 0⟩, ⟨3, 0, 0⟩,
      ⟨4, 0, 0⟩, ⟨5, 0, 0⟩, ⟨6, 0, 0⟩, ⟨7, 0, 0⟩, ⟨8, 0, 0⟩, ⟨9, 0, 0⟩,
      ⟨10, 0, 0⟩, ⟨11, 0, 0⟩, ⟨12, 0, 0⟩, ⟨13, 0, 0⟩, ⟨14, 0, 0⟩,
      ⟨15, 0, 0⟩] = 100 ∧
    coverageWarns [⟨0, 0, 0⟩, ⟨1, 0, 0⟩, ⟨2, 0, 0⟩, ⟨3, 0, 0⟩,
      ⟨4, 0, 0⟩, ⟨5, 0, 0⟩, ⟨6, 0, 0⟩, ⟨7, 0, 0⟩, ⟨8, 0, 0⟩, ⟨9, 0, 0⟩,
      ⟨10, 0, 0⟩, ⟨11, 0, 0⟩, ⟨12, 0, 0⟩, ⟨13, 0, 0⟩, ⟨14, 0, 0⟩,
      ⟨15, 0, 0⟩] = false ∧
    percentageOfColors [⟨0, 0, 0⟩, ⟨1, 0, 0⟩, ⟨2, 0, 0⟩, ⟨3, 0, 0⟩,
      ⟨4, 0, 0⟩, ⟨5, 0, 0⟩, ⟨6, 0, 0⟩, ⟨7, 0, 0⟩] = 50 ∧
    coverageWarns [⟨0, 0, 0⟩, ⟨1, 0, 0⟩, ⟨2, 0, 0⟩, ⟨3, 0, 0⟩,
      ⟨4, 0, 0⟩, ⟨5, 0, 0⟩, ⟨6, 0, 0⟩, ⟨7, 0, 0⟩] = true := by
  refine ⟨((coverage_report _).2.2.1 (by decide)).1,
    ((coverage_report _).2.2.1 (by decide)).2,
    ((coverage_report _).2.2.2 (by decide)).1,
    ((coverage_report _).2.2.2 (by decide)).2⟩

/-- C8: every scale factor outside `[1, 20]` — 0 included — aborts the RGB
recolor path, and every factor inside proceeds with output dimensions exactly
`width * factor` by `height * factor` (as long as the products fit in u32). -/
theorem scale_factor_validation (width height scale : Nat) :
    (¬(1 ≤ scale ∧ scale ≤ 20) →
      colorImageScale width height scale = .error .invalidScale) ∧
    (1 ≤ scale → scale ≤ 20 → width * scale < 2 ^ 32 →
      height * scale < 2 ^ 32 →
      colorImageScale width height scale = .ok (width * scale, height * scale)) := by
  constructor
  · intro h
    rw [colorImageScale, if_neg h]
  · intro h1 h2 hw hh
    rw [colorImageScale, if_pos ⟨h1, h2⟩, Nat.mod_eq_of_lt hw,
      Nat.mod_eq_of_lt hh]

/-- Witness for `scale_factor_validation`: factors 0 and 21 are rejected,
factor 2 scales a 3×2 image to 6×4. -/
theorem scale_factor_validation_witness :
    colorImageScale 3 2 0 = .error .invalidScale ∧
    colorImageScale 3 2 21 = .error .invalidScale ∧
    colorImageScale 3 2 2 = .ok (6, 4) :=
  ⟨(scale_factor_validation 3 2 0).1 (by omega),
    (scale_factor_validation 3 2 21).1 (by omega),
    (scale_factor_validation 3 2 2).2 (by omega) (by omega) (by norm_num)
      (by norm_num)⟩

/-- C5: because the tile-collecting `push` is commented out, the merge branch
always composites an empty list — the merged canvas is 0×0 for every input
(in particular for 3 tiles of 4×4 with `max_columns = 2` and Horizontal
layout, where the claimed geometry is an 8×8 canvas). -/
theorem merged_canvas_always_empty (inputImages : List (Nat × Nat))
    (maxColumns : Nat) (layout : MergeLayout) :
    mergedCanvasSize inputImages maxColumns layout = (0, 0) := by
  have h : imagesToMergeAfterLoop inputImages = [] := by
    induction inputImages with
    | nil => rfl
    | cons x xs ih =>
      rw [imagesToMergeAfterLoop, List.foldl_cons]
      exact ih
  unfold mergedCanvasSize
  rw [h]
  have hchunks : List.toChunks maxColumns ([] : List (Nat × Nat)) = [] := by
    cases maxColumns <;> rfl
  cases layout <;> simp [hchunks]
